import Mathlib

/-!
The Android JNI binding of whisper.cpp (`jni.c`)

A shallow embedding of `examples/whisper.android/lib/src/main/jni/whisper/jni.c`.

* C integers are `Nat`/`Int` with the conversions of the C source written out:
  `toSizeT w` is the conversion to `size_t` (`w` bits wide, the width is a parameter
  because the file is built for 32-bit and 64-bit ABIs), `toJint` is the cast `(jint) x`.
* Pointers and handles are `Nat`, with `0` for `NULL`.
* Every function returns, next to its C result, the list of calls it makes across the
  JNI / native boundary and of the log lines it prints (`Event`), in program order.
* The functions that `jni.c` calls but does not define (the whisper / ggml engine, the
  asset manager, the methods of the Java stream object) are parameters (`Native`,
  `JavaInputStream`).
* `jfloat` samples are carried as their 32-bit patterns; the binding never computes with
  them.  The two floating-point values that only appear in log lines (audio duration,
  real-time factor) are left out of the log events.
-/

namespace WhisperJni

/-! ## Machine integers -/

/-- Conversion of an integer value to `size_t`, `w` bits wide: reduction modulo `2 ^ w`. -/
def toSizeT (w : Nat) (x : Int) : Nat := (x % (2 : Int) ^ w).toNat

/-- The cast `(jint) x`: reduction to 32-bit two's complement. -/
def toJint (x : Int) : Int := (x + 2 ^ 31) % 2 ^ 32 - 2 ^ 31

/-! ## Data passed across the boundary -/

/-- The fields of `struct whisper_context_params` that `jni.c` assigns, and one field
standing for all the others, which it never touches. -/
structure whisper_context_params where
  use_gpu : Bool
  gpu_device : Int
  rest : Nat
  deriving DecidableEq, Repr

/-- The fields of `struct whisper_full_params` that `jni.c` assigns, and one field
standing for all the others, which it never touches. -/
structure whisper_full_params where
  n_threads : Int
  offset_ms : Int
  translate : Bool
  no_context : Bool
  single_segment : Bool
  print_special : Bool
  print_progress : Bool
  print_realtime : Bool
  print_timestamps : Bool
  language : String
  rest : Nat
  deriving DecidableEq, Repr

/-- The enumeration `whisper_sampling_strategy`. -/
inductive whisper_sampling_strategy where
  | WHISPER_SAMPLING_GREEDY
  | WHISPER_SAMPLING_BEAM_SEARCH
  deriving DecidableEq, Repr

/-- A device of the ggml backend registry: what `ggml_backend_dev_name` and
`ggml_backend_dev_type` return for it. -/
structure ggml_device where
  name : String
  dev_type : Int
  deriving DecidableEq, Repr

/-- The temporary buffers that the binding acquires through JNI for marshaling. -/
inductive Resource where
  | floatArrayElements
  | stringUTFChars
  | byteArray
  | byteArrayElements
  deriving DecidableEq, Repr

/-- The calls that `jni.c` makes to JNI, to the platform and to the native engine, and the
log lines it prints. -/
inductive Event where
  | CallIntMethod_available
  | NewByteArray (length : Int)
  | CallIntMethod_read (off : Int) (len : Int)
  | GetByteArrayElements
  | memcpy (n : Nat)
  | ReleaseByteArrayElements
  | DeleteLocalRef
  | GetStringUTFChars
  | ReleaseStringUTFChars
  | GetFloatArrayElements
  | GetArrayLength
  | ReleaseFloatArrayElements
  | AAssetManager_fromJava
  | AAssetManager_open (path : String)
  | ggml_backend_reg_count
  | ggml_backend_reg_get (i : Nat)
  | ggml_backend_reg_name (i : Nat)
  | ggml_backend_dev_count
  | ggml_backend_dev_get (i : Nat)
  | ggml_backend_dev_name (i : Nat)
  | ggml_backend_dev_type (i : Nat)
  | whisper_context_default_params
  | whisper_init_with_params (loader_context : Nat) (params : whisper_context_params)
  | whisper_init_from_file_with_params (path : String) (params : whisper_context_params)
  | whisper_print_system_info
  | whisper_full_default_params (strategy : whisper_sampling_strategy)
  | whisper_reset_timings (ctx : Nat)
  | clock_gettime
  | whisper_full (ctx : Nat) (params : whisper_full_params) (samples : List Nat) (n_samples : Nat)
  | whisper_print_timings (ctx : Nat)
  | LOGI_insufficient_read (req : Nat) (to_copy : Int) (available : Int)
  | LOGI_loading_model (path : String)
  | LOGW_failed_to_open (path : String)
  | LOGI_available_backends (n : Nat)
  | LOGI_backend (i : Nat) (name : String)
  | LOGI_available_devices (n : Nat)
  | LOGI_device (i : Nat) (name : String) (dev_type : Int)
  | LOGI_found_gpu (i : Nat) (name : String)
  | LOGI_init_with_gpu (gpu_device_idx : Int)
  | LOGI_no_gpu
  | LOGI_context_created
  | LOGI_starting_transcription (num_threads : Int)
  | LOGI_failed_to_run
  | LOGI_transcription_complete
  deriving DecidableEq, Repr

/-- What the Java `InputStream` object answers during one call of a loader callback:
the value of `available()`, and for `read(b, off, len)` the returned count together with
the bytes it stores into `b` from index `off` on. -/
structure JavaInputStream where
  available : Int
  read : Int → Int → Int × List Int

/-- The functions of the platform and of the native engine that `jni.c` calls and does
not define.  `AAssetManager_open` returns the asset pointer (`0` for `NULL`); the
initializers return the context pointer (`0` for `NULL`). -/
structure Native where
  AAssetManager_open : String → Nat
  ggml_backend_reg_names : List String
  ggml_backend_devices : List ggml_device
  whisper_context_default_params : whisper_context_params
  whisper_init_with_params : Nat → whisper_context_params → Nat
  whisper_init_from_file_with_params : String → whisper_context_params → Nat
  whisper_full_default_params : whisper_sampling_strategy → whisper_full_params
  whisper_full : Nat → whisper_full_params → List Nat → Int

/-! ## The stream adapter -/

/-- The field of `struct input_stream_context` that the callbacks modify.  The other
fields (`env`, `thiz`, `input_stream` and the two method ids) are JNI references that
select the Java object described by `JavaInputStream`. -/
structure input_stream_context where
  offset : Nat
  deriving DecidableEq, Repr

/-- Result of one `inputStreamRead`: the returned `size_t`, the bytes that `memcpy` wrote
to `output`, the context afterwards and the calls made. -/
structure ReadOutcome where
  ret : Nat
  output : List Int
  is : input_stream_context
  trace : List Event
  deriving DecidableEq, Repr

/-- The initialiser of `size_to_copy`:
`read_size < avail_size ? (jint)read_size : avail_size`.  The comparison is between a
`size_t` and a `jint`, so `avail_size` is converted to `size_t` first. -/
def size_to_copy (w : Nat) (read_size : Nat) (avail_size : Int) : Int :=
  if read_size < toSizeT w avail_size then toJint read_size else avail_size

/-- The function `inputStreamRead`.  `NewByteArray` cannot build an array of negative
length (it yields no array, and the calls that follow on it are undefined); the source
does not test for it, and the model stops there with `none`.  For a non-negative length
the JNI calls are taken to succeed, `NewByteArray` giving a zero-filled array. -/
def inputStreamRead (w : Nat) (stream : JavaInputStream) (is : input_stream_context)
    (read_size : Nat) : Option ReadOutcome :=
  let avail_size : Int := stream.available
  let size_to_copy : Int := size_to_copy w read_size avail_size
  if size_to_copy < 0 then none
  else
    let byte_array : List Int := List.replicate size_to_copy.toNat 0
    let (n_read, stored) := stream.read 0 size_to_copy
    let byte_array : List Int :=
      (stored ++ byte_array.drop stored.length).take size_to_copy.toNat
    let log : List Event :=
      if toSizeT w size_to_copy ≠ read_size ∨ size_to_copy ≠ n_read then
        [Event.LOGI_insufficient_read read_size size_to_copy n_read]
      else []
    let output : List Int := byte_array.take (toSizeT w size_to_copy)
    some
      { ret := toSizeT w size_to_copy
        output := output
        is := { is with offset := (is.offset + toSizeT w size_to_copy) % 2 ^ w }
        trace :=
          [Event.CallIntMethod_available, Event.NewByteArray size_to_copy,
            Event.CallIntMethod_read 0 size_to_copy] ++ log ++
          [Event.GetByteArrayElements, Event.memcpy (toSizeT w size_to_copy),
            Event.ReleaseByteArrayElements, Event.DeleteLocalRef] }

/-- The function `inputStreamEof`: result, context afterwards, calls made. -/
def inputStreamEof (stream : JavaInputStream) (is : input_stream_context) :
    Bool × input_stream_context × List Event :=
  let result : Int := stream.available
  (decide (result ≤ 0), is, [Event.CallIntMethod_available])

/-- The function `asset_read`, for comparison with `inputStreamRead`: it returns what
`AAsset_read` returns, the number of bytes actually read. -/
def asset_read (AAsset_read : Nat → Int) (w : Nat) (read_size : Nat) : Nat :=
  toSizeT w (AAsset_read read_size)

/-! ## Context creation -/

/-- The loop that logs the registered backends: `for (size_t i = 0; i < n_backends; i++)`,
started at index `i` on the backends from `i` on. -/
def log_backends : List String → Nat → List Event
  | [], _ => []
  | name :: names, i =>
    [Event.ggml_backend_reg_get i, Event.ggml_backend_reg_name i, Event.LOGI_backend i name] ++
      log_backends names (i + 1)

/-- The loop that logs the devices: `for (size_t i = 0; i < n_devices; i++)`. -/
def log_devices : List ggml_device → Nat → List Event
  | [], _ => []
  | dev :: devs, i =>
    [Event.ggml_backend_dev_get i, Event.ggml_backend_dev_name i, Event.ggml_backend_dev_type i,
        Event.LOGI_device i dev.name dev.dev_type] ++
      log_devices devs (i + 1)

/-- The loop that looks for a GPU device, started at index `i` on the devices from `i`
on, with `gpu_device_idx` still at its initial `-1`: it returns the final value of
`gpu_device_idx` and the calls made.  The loop re-evaluates `ggml_backend_dev_count()`
before every iteration, and `gpu_device_idx = i` converts the `size_t` index to `int`. -/
def detect_gpu_device : List ggml_device → Nat → Int × List Event
  | [], _ => (-1, [Event.ggml_backend_dev_count])
  | dev :: devs, i =>
    if dev.dev_type = 2 then
      (toJint i,
        [Event.ggml_backend_dev_count, Event.ggml_backend_dev_get i, Event.ggml_backend_dev_type i,
          Event.ggml_backend_dev_name i, Event.LOGI_found_gpu i dev.name])
    else
      let r := detect_gpu_device devs (i + 1)
      (r.1,
        [Event.ggml_backend_dev_count, Event.ggml_backend_dev_get i, Event.ggml_backend_dev_type i] ++
          r.2)

/-- The function `whisper_init_from_asset`: the returned context pointer and the calls
made.  The loader handed to the initializer is represented by its `context`, the asset. -/
def whisper_init_from_asset (native : Native) (asset_path : String) : Nat × List Event :=
  let t_open : List Event :=
    [Event.LOGI_loading_model asset_path, Event.AAssetManager_fromJava,
      Event.AAssetManager_open asset_path]
  let asset : Nat := native.AAssetManager_open asset_path
  if asset = 0 then
    (0, t_open ++ [Event.LOGW_failed_to_open asset_path])
  else
    let n_backends : Nat := native.ggml_backend_reg_names.length
    let t_backends : List Event :=
      [Event.ggml_backend_reg_count, Event.LOGI_available_backends n_backends] ++
        log_backends native.ggml_backend_reg_names 0
    let n_devices : Nat := native.ggml_backend_devices.length
    let t_devices : List Event :=
      [Event.ggml_backend_dev_count, Event.LOGI_available_devices n_devices] ++
        log_devices native.ggml_backend_devices 0
    let ctx_params : whisper_context_params := native.whisper_context_default_params
    let ctx_params : whisper_context_params := { ctx_params with use_gpu := true }
    let found := detect_gpu_device native.ggml_backend_devices 0
    let gpu_device_idx : Int := found.1
    let selected : whisper_context_params × List Event :=
      if gpu_device_idx ≥ 0 then
        ({ ctx_params with gpu_device := gpu_device_idx },
          [Event.LOGI_init_with_gpu gpu_device_idx])
      else
        (ctx_params, [Event.LOGI_no_gpu])
    let ctx_params : whisper_context_params := selected.1
    let ctx : Nat := native.whisper_init_with_params asset ctx_params
    let t_created : List Event :=
      if ctx ≠ 0 then [Event.whisper_print_system_info, Event.LOGI_context_created] else []
    (ctx,
      t_open ++ t_backends ++ t_devices ++ [Event.whisper_context_default_params] ++ found.2 ++
        selected.2 ++ [Event.whisper_init_with_params asset ctx_params] ++ t_created)

/-- Result of a JNI entry point that returns a `jlong` handle. -/
structure HandleOutcome where
  handle : Nat
  trace : List Event
  deriving DecidableEq, Repr

/-- The entry point `initContextFromAsset`. -/
def initContextFromAsset (native : Native) (asset_path_str : String) : HandleOutcome :=
  let r := whisper_init_from_asset native asset_path_str
  { handle := r.1
    trace := [Event.GetStringUTFChars] ++ r.2 ++ [Event.ReleaseStringUTFChars] }

/-- The entry point `initContext`. -/
def initContext (native : Native) (model_path_str : String) : HandleOutcome :=
  let params : whisper_context_params := native.whisper_context_default_params
  let context : Nat := native.whisper_init_from_file_with_params model_path_str params
  { handle := context
    trace :=
      [Event.GetStringUTFChars, Event.whisper_context_default_params,
        Event.whisper_init_from_file_with_params model_path_str params,
        Event.ReleaseStringUTFChars] }

/-! ## Transcription -/

/-- The entry point `fullTranscribe`: the calls made (the function returns `void`).
`audio_data` is the Java float array, `context_ptr` the handle. -/
def fullTranscribe (native : Native) (context_ptr : Nat) (num_threads : Int)
    (audio_data : List Nat) : List Event :=
  let context : Nat := context_ptr
  let audio_data_arr : List Nat := audio_data
  let audio_data_length : Nat := audio_data.length
  let params : whisper_full_params :=
    native.whisper_full_default_params whisper_sampling_strategy.WHISPER_SAMPLING_GREEDY
  let params := { params with print_realtime := true }
  let params := { params with print_progress := false }
  let params := { params with print_timestamps := true }
  let params := { params with print_special := false }
  let params := { params with translate := false }
  let params := { params with language := "auto" }
  let params := { params with n_threads := num_threads }
  let params := { params with offset_ms := 0 }
  let params := { params with no_context := true }
  let params := { params with single_segment := false }
  let t_before : List Event :=
    [Event.GetFloatArrayElements, Event.GetArrayLength,
      Event.whisper_full_default_params whisper_sampling_strategy.WHISPER_SAMPLING_GREEDY,
      Event.whisper_reset_timings context, Event.LOGI_starting_transcription num_threads,
      Event.clock_gettime,
      Event.whisper_full context params audio_data_arr audio_data_length]
  let t_after : List Event :=
    if native.whisper_full context params audio_data_arr ≠ 0 then
      [Event.LOGI_failed_to_run]
    else
      [Event.clock_gettime, Event.LOGI_transcription_complete, Event.whisper_print_timings context]
  t_before ++ t_after ++ [Event.ReleaseFloatArrayElements]

/-! ## Reading a trace -/

/-- The buffer that a call acquires, if it acquires one. -/
def Event.acquires : Event → Option Resource
  | Event.GetFloatArrayElements => some Resource.floatArrayElements
  | Event.GetStringUTFChars => some Resource.stringUTFChars
  | Event.NewByteArray _ => some Resource.byteArray
  | Event.GetByteArrayElements => some Resource.byteArrayElements
  | _ => none

/-- The buffer that a call releases, if it releases one. -/
def Event.releases : Event → Option Resource
  | Event.ReleaseFloatArrayElements => some Resource.floatArrayElements
  | Event.ReleaseStringUTFChars => some Resource.stringUTFChars
  | Event.DeleteLocalRef => some Resource.byteArray
  | Event.ReleaseByteArrayElements => some Resource.byteArrayElements
  | _ => none

/-- Scoped discipline of a trace, given the buffers held at its start: an acquisition
adds the buffer to those held, a release must be of a buffer that is held and removes
it, and at the end nothing is held. -/
def scopedFrom : List Resource → List Event → Bool
  | held, [] => held.isEmpty
  | held, e :: es =>
    match e.acquires, e.releases with
    | some r, _ => !held.contains r && scopedFrom (r :: held) es
    | none, some r => held.contains r && scopedFrom (held.erase r) es
    | none, none => scopedFrom held es

/-- A trace that starts and ends with no buffer held and releases only what it holds. -/
def isScoped (t : List Event) : Bool := scopedFrom [] t

/-- The buffers acquired along a trace, in order. -/
def acquired (t : List Event) : List Resource := t.filterMap Event.acquires

/-- The buffers released along a trace, in order. -/
def released (t : List Event) : List Resource := t.filterMap Event.releases

/-- The calls of `whisper_init_with_params` in a trace, with their arguments. -/
def initWithParamsCalls (t : List Event) : List (Nat × whisper_context_params) :=
  t.filterMap fun e =>
    match e with
    | Event.whisper_init_with_params a p => some (a, p)
    | _ => none

/-- The calls of `whisper_init_from_file_with_params` in a trace, with their arguments. -/
def initFromFileCalls (t : List Event) : List (String × whisper_context_params) :=
  t.filterMap fun e =>
    match e with
    | Event.whisper_init_from_file_with_params path p => some (path, p)
    | _ => none

/-- The calls of `whisper_full` in a trace, with their arguments. -/
def whisperFullCalls (t : List Event) : List (Nat × whisper_full_params × List Nat × Nat) :=
  t.filterMap fun e =>
    match e with
    | Event.whisper_full c p s n => some (c, p, s, n)
    | _ => none

/-- Calls into the native engine that create a context or enumerate backends and
devices. -/
def Event.isEngineCall : Event → Bool
  | Event.whisper_init_with_params _ _ => true
  | Event.whisper_init_from_file_with_params _ _ => true
  | Event.whisper_context_default_params => true
  | Event.ggml_backend_reg_count => true
  | Event.ggml_backend_reg_get _ => true
  | Event.ggml_backend_reg_name _ => true
  | Event.ggml_backend_dev_count => true
  | Event.ggml_backend_dev_get _ => true
  | Event.ggml_backend_dev_name _ => true
  | Event.ggml_backend_dev_type _ => true
  | _ => false

/-- Whether a call is the log line "Insufficient Read". -/
def Event.isInsufficientRead : Event → Bool
  | Event.LOGI_insufficient_read _ _ _ => true
  | _ => false

/-- A call that neither acquires nor releases a marshaling buffer. -/
def Event.isNeutral (e : Event) : Bool := e.acquires.isNone && e.releases.isNone

/-! ## Concrete streams -/

/-- A stream whose `available()` answers `-1` and whose `read` reports end of stream. -/
def negativeAvailableStream : JavaInputStream :=
  { available := -1, read := fun _ _ => (-1, []) }

/-- A stream with four bytes available whose `read` delivers only two of them. -/
def shortReadStream : JavaInputStream :=
  { available := 4, read := fun _ _ => (2, [7, 8]) }

/-- A stream with three bytes available that delivers all of them. -/
def threeByteStream : JavaInputStream :=
  { available := 3, read := fun _ _ => (3, [1, 2, 3]) }

/-! ## Concrete engines -/

/-- An engine with one CPU device (type 0), whose default context parameters have
`use_gpu = false`, and for which every asset opens and no model file can be opened. -/
def cpuOnlyNative : Native :=
  { AAssetManager_open := fun _ => 1
    ggml_backend_reg_names := ["CPU"]
    ggml_backend_devices := [{ name := "CPU", dev_type := 0 }]
    whisper_context_default_params := { use_gpu := false, gpu_device := 0, rest := 0 }
    whisper_init_with_params := fun _ _ => 100
    whisper_init_from_file_with_params := fun _ _ => 0
    whisper_full_default_params := fun _ =>
      { n_threads := 4, offset_ms := 0, translate := false, no_context := true,
        single_segment := false, print_special := false, print_progress := true,
        print_realtime := false, print_timestamps := true, language := "en", rest := 0 }
    whisper_full := fun _ _ _ => 0 }

/-- An engine with a CPU device followed by two GPU devices (type 2), for which no asset
opens. -/
def twoGpuNative : Native :=
  { cpuOnlyNative with
    AAssetManager_open := fun _ => 0
    ggml_backend_devices :=
      [{ name := "CPU", dev_type := 0 }, { name := "Vulkan0", dev_type := 2 },
        { name := "Vulkan1", dev_type := 2 }] }

theorem two_pow_32_le (w : Nat) (hw : 32 ≤ w) : (2 : Int) ^ 32 ≤ 2 ^ w :=
  pow_le_pow_right₀ (by norm_num) hw

theorem toSizeT_of_nonneg (w : Nat) (x : Int) (h0 : 0 ≤ x) (hx : x < 2 ^ w) :
    toSizeT w x = x.toNat := by
  unfold toSizeT
  rw [Int.emod_eq_of_lt h0 hx]

theorem toSizeT_of_small (w : Nat) (hw : 32 ≤ w) (x : Int) (h0 : 0 ≤ x) (hx : x < 2 ^ 31) :
    toSizeT w x = x.toNat := by
  have h := two_pow_32_le w hw
  exact toSizeT_of_nonneg w x h0 (by linarith)

theorem toSizeT_of_neg (w : Nat) (hw : 32 ≤ w) (x : Int) (hlo : -2 ^ 31 ≤ x) (hneg : x < 0) :
    ((toSizeT w x : Nat) : Int) = x + 2 ^ w := by
  have h := two_pow_32_le w hw
  unfold toSizeT
  have h1 : x % 2 ^ w = (x + 2 ^ w) % 2 ^ w := by simp
  rw [h1, Int.emod_eq_of_lt (by linarith) (by linarith)]
  exact Int.toNat_of_nonneg (by linarith)

theorem toJint_of_small (n : Nat) (hn : (n : Int) < 2 ^ 31) : toJint n = n := by
  unfold toJint
  rw [Int.emod_eq_of_lt (by positivity) (by linarith)]
  ring

theorem toJint_lt (x : Int) : toJint x < 2 ^ 31 := by
  unfold toJint
  have h := Int.emod_lt_of_pos (x + 2 ^ 31) (show (0 : Int) < 2 ^ 32 by norm_num)
  linarith

theorem size_to_copy_of_nonneg (w : Nat) (hw : 32 ≤ w) (read_size : Nat) (avail : Int)
    (h0 : 0 ≤ avail) (hhi : avail < 2 ^ 31) :
    size_to_copy w read_size avail = min (read_size : Int) avail := by
  unfold size_to_copy
  rw [toSizeT_of_small w hw avail h0 hhi]
  by_cases h : read_size < avail.toNat
  · have h1 : (read_size : Int) < avail := by omega
    rw [if_pos h, toJint_of_small read_size (by linarith), min_eq_left (le_of_lt h1)]
  · have h1 : avail ≤ (read_size : Int) := by omega
    rw [if_neg h, min_eq_right h1]

theorem size_to_copy_of_neg (w : Nat) (hw : 32 ≤ w) (read_size : Nat) (avail : Int)
    (hlo : -2 ^ 31 ≤ avail) (hneg : avail < 0) (hreq : (read_size : Int) < 2 ^ 31) :
    size_to_copy w read_size avail = read_size := by
  unfold size_to_copy
  have h := toSizeT_of_neg w hw avail hlo hneg
  have h32 := two_pow_32_le w hw
  have h1 : read_size < toSizeT w avail := by
    have : (read_size : Int) < (toSizeT w avail : Int) := by rw [h]; linarith
    exact_mod_cast this
  rw [if_pos h1, toJint_of_small read_size hreq]

/-- In the range of sizes a `jint` can hold, `size_to_copy` lies between `0` and the
requested size. -/
theorem size_to_copy_bounds (w : Nat) (hw : 32 ≤ w) (read_size : Nat) (avail : Int)
    (hreq : (read_size : Int) < 2 ^ 31) (hlo : -2 ^ 31 ≤ avail) (hhi : avail < 2 ^ 31) :
    0 ≤ size_to_copy w read_size avail ∧ size_to_copy w read_size avail ≤ read_size := by
  by_cases h0 : 0 ≤ avail
  · rw [size_to_copy_of_nonneg w hw read_size avail h0 hhi]
    exact ⟨le_min (by positivity) h0, min_le_left _ _⟩
  · rw [size_to_copy_of_neg w hw read_size avail hlo (by linarith) hreq]
    exact ⟨by positivity, le_refl _⟩

/-- What `inputStreamRead` returns when the temporary array can be allocated. -/
theorem inputStreamRead_of_nonneg (w : Nat) (stream : JavaInputStream)
    (is : input_stream_context) (read_size : Nat)
    (h : 0 ≤ size_to_copy w read_size stream.available) :
    inputStreamRead w stream is read_size =
      some
        { ret := toSizeT w (size_to_copy w read_size stream.available)
          output :=
            ((((stream.read 0 (size_to_copy w read_size stream.available)).2 ++
              (List.replicate (size_to_copy w read_size stream.available).toNat (0 : Int)).drop
                (stream.read 0 (size_to_copy w read_size stream.available)).2.length).take
              (size_to_copy w read_size stream.available).toNat).take
              (toSizeT w (size_to_copy w read_size stream.available)))
          is :=
            { offset :=
                (is.offset + toSizeT w (size_to_copy w read_size stream.available)) % 2 ^ w }
          trace :=
            [Event.CallIntMethod_available,
              Event.NewByteArray (size_to_copy w read_size stream.available),
              Event.CallIntMethod_read 0 (size_to_copy w read_size stream.available)] ++
            (if toSizeT w (size_to_copy w read_size stream.available) ≠ read_size ∨
                size_to_copy w read_size stream.available ≠
                  (stream.read 0 (size_to_copy w read_size stream.available)).1 then
              [Event.LOGI_insufficient_read read_size
                (size_to_copy w read_size stream.available)
                (stream.read 0 (size_to_copy w read_size stream.available)).1]
            else []) ++
            [Event.GetByteArrayElements,
              Event.memcpy (toSizeT w (size_to_copy w read_size stream.available)),
              Event.ReleaseByteArrayElements, Event.DeleteLocalRef] } := by
  unfold inputStreamRead
  simp only [if_neg (not_lt.mpr h)]

theorem take_overlay_length (stored : List Int) (k : Nat) :
    ((stored ++ (List.replicate k (0 : Int)).drop stored.length).take k).length = k := by
  simp
  omega

/-! ## The stream adapter: theorems -/

/-- C1, counterexample.  With `available() = -1` and a request of 4 bytes the available
size is smaller than the requested size, yet `inputStreamRead` returns 4, the requested
size: the comparison `read_size < avail_size` is made in `size_t`. -/
theorem inputStreamRead_negative_available_returns_request :
    negativeAvailableStream.available < ((4 : Nat) : Int) ∧
      (inputStreamRead 64 negativeAvailableStream { offset := 0 } 4).map ReadOutcome.ret =
        some 4 ∧
      ((4 : Nat) : Int) ≠ negativeAvailableStream.available := by
  decide

/-- C1, amended.  For every requested read size and every value `a` returned by
`available()` with `0 ≤ a` and `a` smaller than the requested size, `inputStreamRead`
returns normally, the returned count equals `a` and not the requested size, and the
"Insufficient Read" line is logged. -/
theorem inputStreamRead_partial_read (w : Nat) (stream : JavaInputStream)
    (is : input_stream_context) (read_size : Nat) (hw : 32 ≤ w)
    (h0 : 0 ≤ stream.available) (hhi : stream.available < 2 ^ 31)
    (hlt : stream.available < (read_size : Int)) :
    ∃ r, inputStreamRead w stream is read_size = some r ∧
      (r.ret : Int) = stream.available ∧ r.ret ≠ read_size ∧
      r.trace.any Event.isInsufficientRead = true := by
  have hs : size_to_copy w read_size stream.available = stream.available := by
    rw [size_to_copy_of_nonneg w hw read_size _ h0 hhi, min_eq_right (le_of_lt hlt)]
  have hn : 0 ≤ size_to_copy w read_size stream.available := by rw [hs]; exact h0
  have ht : ((toSizeT w stream.available : Nat) : Int) = stream.available := by
    rw [toSizeT_of_small w hw _ h0 hhi]
    exact Int.toNat_of_nonneg h0
  have hne : toSizeT w stream.available ≠ read_size := by
    intro h
    rw [h] at ht
    omega
  refine ⟨_, inputStreamRead_of_nonneg w stream is read_size hn, ?_, ?_, ?_⟩
  · simp only [hs]
    exact ht
  · simp only [hs]
    exact hne
  · simp only [hs]
    simp [hne, Event.isInsufficientRead]

/-- C1, the amended statement at a stream with three bytes available and a request of eight. -/
theorem inputStreamRead_partial_read_witness :
    ∃ r, inputStreamRead 64 threeByteStream { offset := 0 } 8 = some r ∧
      (r.ret : Int) = threeByteStream.available ∧ r.ret ≠ 8 ∧
      r.trace.any Event.isInsufficientRead = true :=
  inputStreamRead_partial_read 64 threeByteStream { offset := 0 } 8 (by decide) (by decide)
    (by decide) (by decide)

/-- C2, the code at the failing input.  Four bytes are requested and available, the
stream's `read` delivers two: `inputStreamRead` logs the mismatch, copies four bytes (the
two delivered and two from the fresh array) and returns 4, the requested size, whereas
`asset_read` returns the count its read delivered. -/
theorem inputStreamRead_short_read_returns_request :
    inputStreamRead 64 shortReadStream { offset := 0 } 4 =
        some
          { ret := 4
            output := [7, 8, 0, 0]
            is := { offset := 4 }
            trace :=
              [Event.CallIntMethod_available, Event.NewByteArray 4,
                Event.CallIntMethod_read 0 4, Event.LOGI_insufficient_read 4 4 2,
                Event.GetByteArrayElements, Event.memcpy 4, Event.ReleaseByteArrayElements,
                Event.DeleteLocalRef] } ∧
      (shortReadStream.read 0 4).1 = 2 ∧
      asset_read (fun _ => 2) 64 4 = 2 := by
  decide

/-- C7.  `inputStreamEof` returns true exactly when `available()` returns a value `≤ 0`,
and it leaves the context, hence the offset counter, as it was. -/
theorem inputStreamEof_iff_available_le_zero (stream : JavaInputStream)
    (is : input_stream_context) :
    ((inputStreamEof stream is).1 = true ↔ stream.available ≤ 0) ∧
      (inputStreamEof stream is).2.1 = is ∧
      (inputStreamEof stream is).2.1.offset = is.offset := by
  simp [inputStreamEof]

/-- C9, counterexample.  With `available() = -1` and a request of `2 ^ 31` bytes the
stream's `read` count (`-1`) differs from the request, but `size_to_copy` is
`(jint) 2 ^ 31 = -2 ^ 31`, no array of that length can be built and the call does not
return a count. -/
theorem inputStreamRead_unallocatable_request :
    (negativeAvailableStream.read 0
          (size_to_copy 64 2147483648 negativeAvailableStream.available)).1 ≠
        ((2147483648 : Nat) : Int) ∧
      size_to_copy 64 2147483648 negativeAvailableStream.available = -2147483648 ∧
      inputStreamRead 64 negativeAvailableStream { offset := 0 } 2147483648 = none := by
  decide

/-- C9, amended.  In every call in which the temporary array can be allocated
(`size_to_copy` is not negative), whenever the count that the stream's `read` returns
differs from the requested size, `inputStreamRead` logs "Insufficient Read" and returns
its count, `size_to_copy`, normally.  `available()` is a `jint`; only its upper bound is
used. -/
theorem inputStreamRead_logs_mismatch (w : Nat) (stream : JavaInputStream)
    (is : input_stream_context) (read_size : Nat) (hw : 32 ≤ w)
    (hhi : stream.available < 2 ^ 31)
    (halloc : 0 ≤ size_to_copy w read_size stream.available)
    (hne : (stream.read 0 (size_to_copy w read_size stream.available)).1 ≠ (read_size : Int)) :
    ∃ r, inputStreamRead w stream is read_size = some r ∧
      r.trace.any Event.isInsufficientRead = true ∧
      (r.ret : Int) = size_to_copy w read_size stream.available := by
  have hlt : size_to_copy w read_size stream.available < 2 ^ 31 := by
    unfold size_to_copy
    split
    · exact toJint_lt _
    · exact hhi
  have ht : ((toSizeT w (size_to_copy w read_size stream.available) : Nat) : Int) =
      size_to_copy w read_size stream.available := by
    rw [toSizeT_of_small w hw _ halloc hlt]
    exact Int.toNat_of_nonneg halloc
  refine ⟨_, inputStreamRead_of_nonneg w stream is read_size halloc, ?_, ht⟩
  have hcond : toSizeT w (size_to_copy w read_size stream.available) ≠ read_size ∨
      size_to_copy w read_size stream.available ≠
        (stream.read 0 (size_to_copy w read_size stream.available)).1 := by
    by_contra hc
    push_neg at hc
    apply hne
    rw [← hc.2, ← ht, hc.1]
  simp [hcond, Event.isInsufficientRead]

/-- C9, the amended statement at `available() = -1` and a request of `2 ^ 32 + 5` bytes:
`size_to_copy` is `5`, the call logs and returns. -/
theorem inputStreamRead_logs_mismatch_witness :
    ∃ r, inputStreamRead 64 negativeAvailableStream { offset := 0 } 4294967301 = some r ∧
      r.trace.any Event.isInsufficientRead = true ∧
      (r.ret : Int) = size_to_copy 64 4294967301 negativeAvailableStream.available :=
  inputStreamRead_logs_mismatch 64 negativeAvailableStream { offset := 0 } 4294967301
    (by decide) (by decide) (by decide) (by decide)

/-- C10.  For a requested size that fits a non-negative `jint` and any `jint` value of
`available()`, negative ones included, `inputStreamRead` returns a count `c` with
`0 ≤ c ≤ read_size` (it is `size_to_copy`, not wrapped), `memcpy` is asked for and writes
exactly `c` bytes, and the offset counter becomes `offset + c` in `size_t` arithmetic,
which is `offset + c` itself whenever that does not overflow. -/
theorem inputStreamRead_count_bounded (w : Nat) (stream : JavaInputStream)
    (is : input_stream_context) (read_size : Nat) (hw : 32 ≤ w)
    (hreq : (read_size : Int) < 2 ^ 31)
    (hlo : -2 ^ 31 ≤ stream.available) (hhi : stream.available < 2 ^ 31) :
    ∃ r, inputStreamRead w stream is read_size = some r ∧
      (r.ret : Int) = size_to_copy w read_size stream.available ∧
      0 ≤ (r.ret : Int) ∧ r.ret ≤ read_size ∧
      r.output.length = r.ret ∧ Event.memcpy r.ret ∈ r.trace ∧
      r.is.offset = (is.offset + r.ret) % 2 ^ w ∧
      (is.offset + r.ret < 2 ^ w → r.is.offset = is.offset + r.ret) := by
  obtain ⟨h0, hle⟩ := size_to_copy_bounds w hw read_size stream.available hreq hlo hhi
  have hnat : toSizeT w (size_to_copy w read_size stream.available) =
      (size_to_copy w read_size stream.available).toNat :=
    toSizeT_of_small w hw _ h0 (by linarith)
  have ht : (((size_to_copy w read_size stream.available).toNat : Nat) : Int) =
      size_to_copy w read_size stream.available := Int.toNat_of_nonneg h0
  refine ⟨_, inputStreamRead_of_nonneg w stream is read_size h0, ?_, ?_, ?_, ?_, ?_, rfl, ?_⟩
  · simp only [hnat]
    exact ht
  · positivity
  · simp only [hnat]
    omega
  · simp only [hnat, List.take_take, min_self]
    exact take_overlay_length _ _
  · simp
  · intro h
    exact Nat.mod_eq_of_lt h

/-- C10 at a negative value of `available()` and a request of four bytes. -/
theorem inputStreamRead_count_bounded_witness :
    ∃ r, inputStreamRead 64 negativeAvailableStream { offset := 10 } 4 = some r ∧
      (r.ret : Int) = size_to_copy 64 4 negativeAvailableStream.available ∧
      0 ≤ (r.ret : Int) ∧ r.ret ≤ 4 ∧
      r.output.length = r.ret ∧ Event.memcpy r.ret ∈ r.trace ∧
      r.is.offset = (10 + r.ret) % 2 ^ 64 ∧
      (10 + r.ret < 2 ^ 64 → r.is.offset = 10 + r.ret) :=
  inputStreamRead_count_bounded 64 negativeAvailableStream { offset := 10 } 4 (by decide)
    (by decide) (by decide) (by decide)

/-! ## Lemmas on the device loops -/

theorem scopedFrom_append_neutral (held : List Resource) (t u : List Event)
    (ht : ∀ e ∈ t, e.isNeutral = true) : scopedFrom held (t ++ u) = scopedFrom held u := by
  induction t with
  | nil => rfl
  | cons e es ih =>
    have he := ht e (List.mem_cons_self e es)
    have hes : ∀ x ∈ es, x.isNeutral = true := fun x hx => ht x (List.mem_cons_of_mem e hx)
    simp only [Event.isNeutral, Bool.and_eq_true, Option.isNone_iff_eq_none] at he
    simp only [List.cons_append, scopedFrom, he.1, he.2]
    exact ih hes

theorem acquired_of_neutral (t : List Event) (ht : ∀ e ∈ t, e.isNeutral = true) :
    acquired t = [] := by
  unfold acquired
  rw [List.filterMap_eq_nil_iff]
  intro e he
  have h := ht e he
  simp only [Event.isNeutral, Bool.and_eq_true, Option.isNone_iff_eq_none] at h
  exact h.1

theorem released_of_neutral (t : List Event) (ht : ∀ e ∈ t, e.isNeutral = true) :
    released t = [] := by
  unfold released
  rw [List.filterMap_eq_nil_iff]
  intro e he
  have h := ht e he
  simp only [Event.isNeutral, Bool.and_eq_true, Option.isNone_iff_eq_none] at h
  exact h.2

theorem log_backends_neutral (names : List String) (i : Nat) :
    ∀ e ∈ log_backends names i, e.isNeutral = true := by
  induction names generalizing i with
  | nil => simp [log_backends]
  | cons n ns ih =>
    intro e he
    simp only [log_backends, List.mem_append, List.mem_cons, List.mem_singleton,
      List.not_mem_nil, or_false] at he
    rcases he with (h | h | h) | h
    · subst h; rfl
    · subst h; rfl
    · subst h; rfl
    · exact ih (i + 1) e h

theorem log_devices_neutral (devs : List ggml_device) (i : Nat) :
    ∀ e ∈ log_devices devs i, e.isNeutral = true := by
  induction devs generalizing i with
  | nil => simp [log_devices]
  | cons d ds ih =>
    intro e he
    simp only [log_devices, List.mem_append, List.mem_cons, List.mem_singleton,
      List.not_mem_nil, or_false] at he
    rcases he with (h | h | h | h) | h
    · subst h; rfl
    · subst h; rfl
    · subst h; rfl
    · subst h; rfl
    · exact ih (i + 1) e h

theorem detect_gpu_device_neutral (devs : List ggml_device) (i : Nat) :
    ∀ e ∈ (detect_gpu_device devs i).2, e.isNeutral = true := by
  induction devs generalizing i with
  | nil => simp [detect_gpu_device, Event.isNeutral, Event.acquires, Event.releases]
  | cons d ds ih =>
    intro e he
    unfold detect_gpu_device at he
    split at he
    · simp only [List.mem_cons, List.mem_singleton, List.not_mem_nil, or_false] at he
      rcases he with h | h | h | h | h
      · subst h; rfl
      · subst h; rfl
      · subst h; rfl
      · subst h; rfl
      · subst h; rfl
    · simp only [List.mem_append, List.mem_cons, List.mem_singleton, List.not_mem_nil,
        or_false] at he
      rcases he with (h | h | h) | h
      · subst h; rfl
      · subst h; rfl
      · subst h; rfl
      · exact ih (i + 1) e h

theorem whisper_init_from_asset_neutral (native : Native) (path : String) :
    ∀ e ∈ (whisper_init_from_asset native path).2, e.isNeutral = true := by
  intro e he
  by_cases h0 : native.AAssetManager_open path = 0
  · simp only [whisper_init_from_asset, if_pos h0, List.mem_append, List.mem_cons,
      List.mem_singleton, List.not_mem_nil, or_false, or_assoc] at he
    rcases he with h | h | h | h
    · subst h; rfl
    · subst h; rfl
    · subst h; rfl
    · subst h; rfl
  · by_cases hg : (detect_gpu_device native.ggml_backend_devices 0).1 ≥ 0
    · by_cases hc : native.whisper_init_with_params (native.AAssetManager_open path)
          { use_gpu := true
            gpu_device := (detect_gpu_device native.ggml_backend_devices 0).1
            rest := native.whisper_context_default_params.rest } ≠ 0
      · simp only [whisper_init_from_asset, if_neg h0, if_pos hg, if_pos hc, List.mem_append,
          List.mem_cons, List.mem_singleton, List.not_mem_nil, or_false, or_assoc] at he
        rcases he with h | h | h | h | h | h | h | h | h | h | h | h | h | h | h
        · subst h; rfl
        · subst h; rfl
        · subst h; rfl
        · subst h; rfl
        · subst h; rfl
        · exact log_backends_neutral _ _ e h
        · subst h; rfl
        · subst h; rfl
        · exact log_devices_neutral _ _ e h
        · subst h; rfl
        · exact detect_gpu_device_neutral _ _ e h
        · subst h; rfl
        · subst h; rfl
        · subst h; rfl
        · subst h; rfl
      · simp only [whisper_init_from_asset, if_neg h0, if_pos hg, if_neg hc, List.mem_append,
          List.mem_cons, List.mem_singleton, List.not_mem_nil, or_false, or_assoc] at he
        rcases he with h | h | h | h | h | h | h | h | h | h | h | h | h
        · subst h; rfl
        · subst h; rfl
        · subst h; rfl
        · subst h; rfl
        · subst h; rfl
        · exact log_backends_neutral _ _ e h
        · subst h; rfl
        · subst h; rfl
        · exact log_devices_neutral _ _ e h
        · subst h; rfl
        · exact detect_gpu_device_neutral _ _ e h
        · subst h; rfl
        · subst h; rfl
    · by_cases hc : native.whisper_init_with_params (native.AAssetManager_open path)
          { use_gpu := true
            gpu_device := native.whisper_context_default_params.gpu_device
            rest := native.whisper_context_default_params.rest } ≠ 0
      · simp only [whisper_init_from_asset, if_neg h0, if_neg hg, if_pos hc, List.mem_append,
          List.mem_cons, List.mem_singleton, List.not_mem_nil, or_false, or_assoc] at he
        rcases he with h | h | h | h | h | h | h | h | h | h | h | h | h | h | h
        · subst h; rfl
        · subst h; rfl
        · subst h; rfl
        · subst h; rfl
        · subst h; rfl
        · exact log_backends_neutral _ _ e h
        · subst h; rfl
        · subst h; rfl
        · exact log_devices_neutral _ _ e h
        · subst h; rfl
        · exact detect_gpu_device_neutral _ _ e h
        · subst h; rfl
        · subst h; rfl
        · subst h; rfl
        · subst h; rfl
      · simp only [whisper_init_from_asset, if_neg h0, if_neg hg, if_neg hc, List.mem_append,
          List.mem_cons, List.mem_singleton, List.not_mem_nil, or_false, or_assoc] at he
        rcases he with h | h | h | h | h | h | h | h | h | h | h | h | h
        · subst h; rfl
        · subst h; rfl
        · subst h; rfl
        · subst h; rfl
        · subst h; rfl
        · exact log_backends_neutral _ _ e h
        · subst h; rfl
        · subst h; rfl
        · exact log_devices_neutral _ _ e h
        · subst h; rfl
        · exact detect_gpu_device_neutral _ _ e h
        · subst h; rfl
        · subst h; rfl

/-- C3.  When the asset store's open returns no asset, `initContextFromAsset` (through
`whisper_init_from_asset`) returns the null handle and its trace holds no call of the
native initializer nor of the backend / device enumeration; and whenever the trace holds
a call of `whisper_init_with_params`, the asset was opened. -/
theorem initContextFromAsset_open_failure (native : Native) (path : String) :
    (native.AAssetManager_open path = 0 →
      (initContextFromAsset native path).handle = 0 ∧
      (whisper_init_from_asset native path).1 = 0 ∧
      (initContextFromAsset native path).trace.any Event.isEngineCall = false ∧
      initWithParamsCalls (initContextFromAsset native path).trace = []) ∧
    (∀ a p, Event.whisper_init_with_params a p ∈ (initContextFromAsset native path).trace →
      native.AAssetManager_open path ≠ 0) := by
  have key : native.AAssetManager_open path = 0 →
      (initContextFromAsset native path).trace =
        [Event.GetStringUTFChars, Event.LOGI_loading_model path, Event.AAssetManager_fromJava,
          Event.AAssetManager_open path, Event.LOGW_failed_to_open path,
          Event.ReleaseStringUTFChars] := by
    intro h
    simp [initContextFromAsset, whisper_init_from_asset, h]
  refine ⟨fun h => ⟨?_, ?_, ?_, ?_⟩, fun a p hmem h => ?_⟩
  · simp [initContextFromAsset, whisper_init_from_asset, h]
  · simp [whisper_init_from_asset, h]
  · rw [key h]
    rfl
  · rw [key h]
    rfl
  · rw [key h] at hmem
    simp at hmem

/-- C3 at an engine for which no asset opens. -/
theorem initContextFromAsset_open_failure_witness :
    (initContextFromAsset twoGpuNative "ggml-tiny.bin").handle = 0 ∧
      (whisper_init_from_asset twoGpuNative "ggml-tiny.bin").1 = 0 ∧
      (initContextFromAsset twoGpuNative "ggml-tiny.bin").trace.any Event.isEngineCall = false ∧
      initWithParamsCalls (initContextFromAsset twoGpuNative "ggml-tiny.bin").trace = [] :=
  (initContextFromAsset_open_failure twoGpuNative "ggml-tiny.bin").1 rfl

/-- C5, counterexample.  For a path that the native initializer cannot open (it returns
`NULL`), `initContext` returns the null handle, but it has called
`whisper_init_from_file_with_params` with that very path. -/
theorem initContext_calls_initializer_on_missing_file :
    cpuOnlyNative.whisper_init_from_file_with_params "/no/such/model.bin"
        cpuOnlyNative.whisper_context_default_params = 0 ∧
      (initContext cpuOnlyNative "/no/such/model.bin").handle = 0 ∧
      initFromFileCalls (initContext cpuOnlyNative "/no/such/model.bin").trace =
        [("/no/such/model.bin", cpuOnlyNative.whisper_context_default_params)] := by
  decide

/-- C5, amended.  For every path, `initContext` calls the native initializer
`whisper_init_from_file_with_params` exactly once, with that path and the default context
parameters, and returns the handle that the initializer returns: the null handle exactly
when the initializer returns `NULL`. -/
theorem initContext_delegates_to_initializer (native : Native) (path : String) :
    initFromFileCalls (initContext native path).trace =
        [(path, native.whisper_context_default_params)] ∧
      (initContext native path).handle =
        native.whisper_init_from_file_with_params path native.whisper_context_default_params ∧
      ((initContext native path).handle = 0 ↔
        native.whisper_init_from_file_with_params path
          native.whisper_context_default_params = 0) := by
  refine ⟨rfl, rfl, Iff.rfl⟩

/-- C6.  `fullTranscribe` calls `whisper_full` exactly once, on the handle, the samples
and their count, with parameters `p` that are the native defaults for the greedy strategy
in every field the binding does not assign, and `n_threads = num_threads`,
`language = "auto"`, `no_context = true`, `single_segment = false`, `translate = false`,
`offset_ms = 0`, `print_realtime = true`, `print_progress = false`,
`print_timestamps = true`, `print_special = false`; the same `p` is passed for every
other handle and sample sequence. -/
theorem fullTranscribe_params_fixed (native : Native) (context_ptr : Nat) (num_threads : Int)
    (audio_data : List Nat) :
    ∃ p : whisper_full_params,
      whisperFullCalls (fullTranscribe native context_ptr num_threads audio_data) =
        [(context_ptr, p, audio_data, audio_data.length)] ∧
      p.n_threads = num_threads ∧ p.language = "auto" ∧ p.no_context = true ∧
      p.single_segment = false ∧ p.translate = false ∧ p.offset_ms = 0 ∧
      p.print_realtime = true ∧ p.print_progress = false ∧ p.print_timestamps = true ∧
      p.print_special = false ∧
      p.rest =
        (native.whisper_full_default_params
          whisper_sampling_strategy.WHISPER_SAMPLING_GREEDY).rest ∧
      ∀ (context_ptr2 : Nat) (audio_data2 : List Nat),
        whisperFullCalls (fullTranscribe native context_ptr2 num_threads audio_data2) =
          [(context_ptr2, p, audio_data2, audio_data2.length)] := by
  have h : ∀ (c : Nat) (a : List Nat),
      whisperFullCalls (fullTranscribe native c num_threads a) =
        [(c,
          { n_threads := num_threads, offset_ms := 0, translate := false, no_context := true,
            single_segment := false, print_special := false, print_progress := false,
            print_realtime := true, print_timestamps := true, language := "auto",
            rest :=
              (native.whisper_full_default_params
                whisper_sampling_strategy.WHISPER_SAMPLING_GREEDY).rest },
          a, a.length)] := by
    intro c a
    unfold whisperFullCalls fullTranscribe
    simp only [List.filterMap_append]
    split <;> simp
  exact ⟨_, h context_ptr audio_data, rfl, rfl, rfl, rfl, rfl, rfl, rfl, rfl, rfl, rfl, rfl, h⟩

/-- C8.  On every path of `fullTranscribe` (native call returning zero or not), of
`initContextFromAsset` (asset opened or not) and of `inputStreamRead` the trace is scoped:
each marshaling buffer acquired is released once before the return and nothing else is
released.  The buffers are: the float array elements; the path string characters; the
temporary byte array and its elements, released in reverse order. -/
theorem marshaling_buffers_scoped :
    (∀ (native : Native) (context_ptr : Nat) (num_threads : Int) (audio_data : List Nat),
      isScoped (fullTranscribe native context_ptr num_threads audio_data) = true ∧
      acquired (fullTranscribe native context_ptr num_threads audio_data) =
        [Resource.floatArrayElements] ∧
      released (fullTranscribe native context_ptr num_threads audio_data) =
        [Resource.floatArrayElements]) ∧
    (∀ (native : Native) (path : String),
      isScoped (initContextFromAsset native path).trace = true ∧
      acquired (initContextFromAsset native path).trace = [Resource.stringUTFChars] ∧
      released (initContextFromAsset native path).trace = [Resource.stringUTFChars]) ∧
    (∀ (w : Nat) (stream : JavaInputStream) (is : input_stream_context) (read_size : Nat)
      (r : ReadOutcome), inputStreamRead w stream is read_size = some r →
      isScoped r.trace = true ∧
      acquired r.trace = [Resource.byteArray, Resource.byteArrayElements] ∧
      released r.trace = [Resource.byteArrayElements, Resource.byteArray]) := by
  refine ⟨?_, ?_, ?_⟩
  · intro native c n a
    unfold fullTranscribe
    simp only
    split <;> exact ⟨rfl, rfl, rfl⟩
  · intro native path
    have hn := whisper_init_from_asset_neutral native path
    have ha := acquired_of_neutral _ hn
    have hr := released_of_neutral _ hn
    unfold acquired at ha ⊢
    unfold released at hr ⊢
    refine ⟨?_, ?_, ?_⟩
    · have ht : (initContextFromAsset native path).trace =
          Event.GetStringUTFChars ::
            ((whisper_init_from_asset native path).2 ++ [Event.ReleaseStringUTFChars]) := by
        simp [initContextFromAsset]
      have hs : scopedFrom [Resource.stringUTFChars]
          ((whisper_init_from_asset native path).2 ++ [Event.ReleaseStringUTFChars]) = true := by
        rw [scopedFrom_append_neutral _ _ _ hn]
        rfl
      rw [ht]
      unfold isScoped
      simp only [scopedFrom, Event.acquires, hs]
      rfl
    · simp only [initContextFromAsset, List.filterMap_append, ha]
      rfl
    · simp only [initContextFromAsset, List.filterMap_append, hr]
      rfl
  · intro w stream is read_size r h
    by_cases hneg : size_to_copy w read_size stream.available < 0
    · simp [inputStreamRead, hneg] at h
    · rw [inputStreamRead_of_nonneg w stream is read_size (not_lt.mp hneg)] at h
      simp only [Option.some.injEq] at h
      subst h
      simp only
      split <;> exact ⟨rfl, rfl, rfl⟩

/-- C8 at a short read, at a transcription of two samples and at an asset that does not
open. -/
theorem marshaling_buffers_scoped_witness :
    isScoped
        [Event.CallIntMethod_available, Event.NewByteArray 4, Event.CallIntMethod_read 0 4,
          Event.LOGI_insufficient_read 4 4 2, Event.GetByteArrayElements, Event.memcpy 4,
          Event.ReleaseByteArrayElements, Event.DeleteLocalRef] = true ∧
      isScoped (fullTranscribe cpuOnlyNative 100 2 [0, 0]) = true ∧
      isScoped (initContextFromAsset twoGpuNative "ggml-tiny.bin").trace = true :=
  ⟨(marshaling_buffers_scoped.2.2 64 shortReadStream { offset := 0 } 4
      { ret := 4
        output := [7, 8, 0, 0]
        is := { offset := 4 }
        trace :=
          [Event.CallIntMethod_available, Event.NewByteArray 4, Event.CallIntMethod_read 0 4,
            Event.LOGI_insufficient_read 4 4 2, Event.GetByteArrayElements, Event.memcpy 4,
            Event.ReleaseByteArrayElements, Event.DeleteLocalRef] }
      (by decide)).1,
    (marshaling_buffers_scoped.1 cpuOnlyNative 100 2 [0, 0]).1,
    (marshaling_buffers_scoped.2.1 twoGpuNative "ggml-tiny.bin").1⟩

end WhisperJni
